import Mathlib

/-!
# Verification of the Skill Discovery & Three-Level Loading Protocol

Shallow embedding of the `langchain_skills` package:

* `Tools.bash`, `Tools.read_file`, `Tools.write_file`, `Tools.load_skill`
  embed the tools of `src/langchain_skills/tools.py`.  OS-level effects
  (subprocess execution, filesystem reads and writes, exceptions raised by
  the Python runtime) are made explicit as outcome parameters; the string
  assembly performed by the tools is translated line by line.
* `SkillLoader.*` embeds the skill scanner / instruction loader / metadata
  compressor.  The module `skill_loader.py` is imported by `tools.py`,
  `agent.py` and `cli.py` but is not present in the repository snapshot, so
  these definitions are modelled from the specification (see the doc
  comments on each definition).
* `get_checkpoint_config` embeds `src/langchain_skills/checkpoint/config.py`
  with the process environment passed explicitly as a function
  `String → Option String` (`os.getenv`).
-/

/-- Python's `sep.join(parts)`: interleaves `sep` between the parts. -/
def joinSep (sep : String) : List String → String
  | [] => ""
  | [x] => x
  | x :: xs => x ++ sep ++ joinSep sep xs

/-- Does the first list start with the second one? -/
def listStartsWith : List Char → List Char → Bool
  | _, [] => true
  | [], _ :: _ => false
  | a :: as, b :: bs => a = b && listStartsWith as bs

/-- Does `l` contain `sub` as a contiguous run? -/
def hasSublist (sub : List Char) : List Char → Bool
  | [] => listStartsWith [] sub
  | a :: t => listStartsWith (a :: t) sub || hasSublist sub t

/-- Does string `s` contain `sub` as a contiguous substring? -/
def strContains (s sub : String) : Bool :=
  hasSublist sub.toList s.toList

/-- Python's `"\x7b:4d\x7d"` formatting for a natural number: right aligned in a
field of width 4, padded with spaces, never truncated. -/
def pad4 (n : Nat) : String :=
  let s := toString n
  String.mk (List.replicate (4 - s.length) ' ') ++ s

/-- A skill manifest file (`SKILL.md`): structured front-matter header with
optional `name` and `description` keys, followed by a free-form instruction
body. -/
structure Manifest where
  declaredName : Option String
  description : Option String
  body : String
deriving DecidableEq

/-- One immediate subdirectory of a search-path root.  A subdirectory without
a readable manifest (`manifest = none`) is silently skipped by the scanner;
this also covers unreadable directories, which the spec's failure policy
says are skipped with no record produced. -/
structure SkillDir where
  dirName : String
  manifest : Option Manifest
deriving DecidableEq

/-- A search-path root: its filesystem path and its immediate subdirectories
in enumeration order. -/
structure SkillRoot where
  path : String
  dirs : List SkillDir
deriving DecidableEq

/-- The Skill Record value object (`name`, `description`, `skill_path`,
`instructions`). -/
structure SkillContent where
  name : String
  description : String
  skill_path : String
  instructions : String
deriving DecidableEq

namespace SkillLoader

/-- Modelled from the spec: the record a scan produces for one subdirectory
(`skill_loader.py` is missing from src/).  Per spec §4.1: subdirectories
lacking a manifest are skipped; an absent `name` falls back to the
subdirectory's base name; an absent `description` falls back to the empty
string; `instructions` is not populated during scanning. -/
def scanRecord (rootPath : String) (d : SkillDir) : Option SkillContent :=
  d.manifest.map fun m =>
    { name := m.declaredName.getD d.dirName
      description := m.description.getD ""
      skill_path := rootPath ++ "/" ++ d.dirName
      instructions := "" }

/-- Modelled from the spec: the record the loader reads for one subdirectory,
with the full instruction body (everything in the manifest after the
structured header), verbatim. -/
def loadRecord (rootPath : String) (d : SkillDir) : Option SkillContent :=
  d.manifest.map fun m =>
    { name := m.declaredName.getD d.dirName
      description := m.description.getD ""
      skill_path := rootPath ++ "/" ++ d.dirName
      instructions := m.body }

/-- All scan records of the concatenated walk of the search paths, in
first-seen order (root order, then subdirectory enumeration order), before
deduplication. -/
def allRecords (roots : List SkillRoot) : List SkillContent :=
  (roots.map fun r => r.dirs.filterMap (scanRecord r.path)).flatten

/-- All loader records of the concatenated walk, in the same precedence
order as the scanner. -/
def allLoadRecords (roots : List SkillRoot) : List SkillContent :=
  (roots.map fun r => r.dirs.filterMap (loadRecord r.path)).flatten

/-- Keep the first record seen for each `name`, dropping later duplicates;
`seen` is the set of names already kept. -/
def dedupAux (seen : List String) : List SkillContent → List SkillContent
  | [] => []
  | r :: rs =>
    if r.name ∈ seen then dedupAux seen rs
    else r :: dedupAux (r.name :: seen) rs

/-- Modelled from the spec: `SkillLoader.scan_skills` (`skill_loader.py` is
missing from src/).  Walks the search paths in order, collects one record
per skill subdirectory with a manifest, and deduplicates by `name` keeping
the record from the earliest root (spec §4.1). -/
def scan_skills (roots : List SkillRoot) : List SkillContent :=
  dedupAux [] (allRecords roots)

/-- Modelled from the spec: `SkillLoader.load_skill` (`skill_loader.py` is
missing from src/).  Re-resolves `name` against the same search-path
precedence rule as the scanner, re-reading the manifest from disk (the
filesystem state is the `roots` argument); returns the first match, or
`none` when no subdirectory resolves to `name` (spec §4.3). -/
def load_skill (roots : List SkillRoot) (name : String) : Option SkillContent :=
  (allLoadRecords roots).find? fun r => r.name == name

/-- Modelled from the spec: `SkillLoader.build_system_prompt`
(`skill_loader.py` is missing from src/).  Appends to `base_prompt` a
deterministic block listing each skill's `name` and `description` in input
order; when `skills` is empty the block is omitted entirely and
`base_prompt` is returned unchanged (spec §4.2; the trailing-newline
normalization is modelled as the identity, which changes nothing). -/
def build_system_prompt (base_prompt : String) (skills : List SkillContent) : String :=
  if skills.isEmpty then base_prompt
  else
    base_prompt ++ "\n\n# Available Skills\n\n"
      ++ joinSep "\n" (skills.map fun s => "- " ++ s.name ++ ": " ++ s.description)
      ++ "\n"

/-- On-disk edit of one subdirectory: if this directory's manifest resolves
to skill `name`, rewrite its instruction body to `newBody`; otherwise leave
the directory unchanged. -/
def editDir (name newBody : String) (d : SkillDir) : SkillDir :=
  match d.manifest with
  | none => d
  | some m =>
    if m.declaredName.getD d.dirName == name then
      { d with manifest := some { m with body := newBody } }
    else d

/-- On-disk edit of the whole search-path set: rewrite the instruction body
of every manifest that declares skill `name`. -/
def editManifestBody (roots : List SkillRoot) (name newBody : String) : List SkillRoot :=
  roots.map fun r => { r with dirs := r.dirs.map (editDir name newBody) }

end SkillLoader

/-- Outcome of `subprocess.run(command, shell=True, cwd=cwd,
capture_output=True, text=True, timeout=300)`: normal completion with
captured streams and exit code, `subprocess.TimeoutExpired` (which carries
whatever partial output had been produced up to cancellation), or any other
exception with its message. -/
inductive ExecOutcome
  | completed (stdout stderr : String) (returncode : Int)
  | timedOut (cutStdout cutStderr : String)
  | oserror (msg : String)
deriving DecidableEq

/-- Outcome of the filesystem interaction of `read_file`: the checks
`path.exists()` / `path.is_file()` and the call
`path.read_text(encoding="utf-8")`, which may raise `UnicodeDecodeError`
or any other exception. -/
inductive ReadOutcome
  | ok (content : String)
  | notFound
  | notAFile
  | decodeError
  | readError (msg : String)
deriving DecidableEq

/-- Outcome of the filesystem operations inside `write_file`'s try block
(tools.py lines 191-195).  Both `path.parent.mkdir(parents=True,
exist_ok=True)` and `path.write_text(content)` run inside the same `try`:
an exception can be raised by `mkdir` after it has already created the
topmost `created` missing ancestor directories (pathlib creates missing
parents top-down), or by `write_text` after `mkdir` completed — in which
case the newly created directories persist. -/
inductive WriteOutcome
  | ok
  | mkdirError (created : Nat) (msg : String)
  | writeError (msg : String)
deriving DecidableEq

/-- A `pathlib.Path` value: absolute flag plus components. -/
structure PyPath where
  absolute : Bool
  comps : List String
deriving DecidableEq

/-- An abstract filesystem state: which directories exist and which files
hold which text content. -/
structure FS where
  dirExists : PyPath → Bool
  fileContent : PyPath → Option String

namespace Tools

/-- `path = Path(file_path); if not path.is_absolute(): path =
working_directory / path`. -/
def resolvePath (wd p : PyPath) : PyPath :=
  if p.absolute then p else ⟨wd.absolute, wd.comps ++ p.comps⟩

/-- `path.parent`. -/
def parentPath (p : PyPath) : PyPath :=
  ⟨p.absolute, p.comps.dropLast⟩

/-- `p` together with all its ancestor directories (what
`mkdir(parents=True, exist_ok=True)` guarantees to exist afterwards). -/
def ancestors (p : PyPath) : List PyPath :=
  (List.range (p.comps.length + 1)).map fun n => ⟨p.absolute, p.comps.take n⟩

/-- `path.parent.mkdir(parents=True, exist_ok=True)` applied to directory
`d`: afterwards `d` and all its ancestors exist. -/
def mkdirParents (fs : FS) (d : PyPath) : FS :=
  { fs with dirExists := fun q => fs.dirExists q || (ancestors d).contains q }

/-- `mkdir(parents=True, exist_ok=True)` interrupted by an exception after
ensuring only the first `k` entries of the ancestor chain (top-down order,
as pathlib creates missing parents). -/
def mkdirUpTo (fs : FS) (d : PyPath) (k : Nat) : FS :=
  { fs with dirExists := fun q => fs.dirExists q || ((ancestors d).take k).contains q }

/-- `path.write_text(content, encoding="utf-8")`. -/
def writeText (fs : FS) (p : PyPath) (c : String) : FS :=
  { fs with fileContent := fun q => if q = p then some c else fs.fileContent q }

/-- Rendering of a `PyPath` as Python prints it (used in the success
message `f"[Success] File written: \x7bpath\x7d"`). -/
def pathToString (p : PyPath) : String :=
  (if p.absolute then "/" else "") ++ joinSep "/" p.comps

/-- The string assembly of the `bash` tool on normal completion
(tools.py lines 103-118): stdout first when non-empty, then a blank
separator and the stderr block under a `[stderr]` label when stderr is
non-empty, `[No output]` when both are empty, and always a final
`[Exit code: N]` part; the parts are joined with newlines. -/
def bash_run (stdout stderr : String) (returncode : Int) : String :=
  let p1 : List String := if stdout = "" then [] else [stdout]
  let p2 : List String :=
    if stderr = "" then p1
    else (if p1 = [] then p1 else p1 ++ [""]) ++ ["[stderr]\n" ++ stderr]
  let p3 : List String := if p2 = [] then ["[No output]"] else p2
  joinSep "\n" (p3 ++ ["\n[Exit code: " ++ toString returncode ++ "]"])

/-- The `bash` tool (tools.py lines 73-123).  The outcome of the
subprocess call is explicit; every branch returns a plain string. -/
def bash (o : ExecOutcome) : String :=
  match o with
  | .completed stdout stderr returncode => bash_run stdout stderr returncode
  | .timedOut _ _ => "[Error] Command timed out after 300 seconds."
  | .oserror msg => "[Error] Failed to execute command: " ++ msg

/-- `f"\x7bi:4d\x7d| \x7bline\x7d"` applied to `enumerate(lines, 1)`. -/
def numberLines (lines : List String) : List String :=
  lines.enum.map fun p => pad4 (p.1 + 1) ++ "| " ++ p.2

/-- The line-numbering and truncation logic of `read_file` (tools.py lines
151-163), applied to `lines = content.split("\n")`: number the first 2000
lines, and when more than 2000 lines exist append one summary line naming
how many were omitted. -/
def read_file_render (lines : List String) : List String :=
  let numbered := numberLines (lines.take 2000)
  if 2000 < lines.length then
    numbered ++ ["... (" ++ toString (lines.length - 2000) ++ " more lines)"]
  else numbered

/-- The `read_file` tool (tools.py lines 127-168).  The filesystem
interaction is the explicit `ReadOutcome`; every branch returns a plain
string. -/
def read_file (file_path : String) (o : ReadOutcome) : String :=
  match o with
  | .ok content => joinSep "\n" (read_file_render (content.splitOn "\n"))
  | .notFound => "[Error] File not found: " ++ file_path
  | .notAFile => "[Error] Not a file: " ++ file_path
  | .decodeError =>
    "[Error] Cannot read file (binary or unknown encoding): " ++ file_path
  | .readError msg => "[Error] Failed to read file: " ++ msg

/-- The `write_file` tool (tools.py lines 172-199): resolve the target
against the working directory, create missing parent directories, write the
content, and report success.  Any exception inside the try block becomes an
`[Error]` string; the filesystem keeps whatever directory creation had
already happened at the point the exception was raised (an exception in
`write_text` leaves all parent directories created by the preceding
`mkdir` behind).  Returns the tool's string result together with the new
filesystem state. -/
def write_file (wd target : PyPath) (content : String) (fs : FS)
    (o : WriteOutcome) : String × FS :=
  let path := resolvePath wd target
  match o with
  | .mkdirError created msg =>
    ("[Error] Failed to write file: " ++ msg, mkdirUpTo fs (parentPath path) created)
  | .writeError msg =>
    ("[Error] Failed to write file: " ++ msg, mkdirParents fs (parentPath path))
  | .ok =>
    let fs1 := mkdirParents fs (parentPath path)
    let fs2 := writeText fs1 path content
    ("[Success] File written: " ++ pathToString path, fs2)

/-- The `load_skill` tool (tools.py lines 35-69): load via the
`SkillLoader`; on a not-found result, scan for the currently discoverable
skills and report them in a descriptive message (or report that none are
available); on success return the skill's instructions in the documented
format. -/
def load_skill (roots : List SkillRoot) (skill_name : String) : String :=
  match SkillLoader.load_skill roots skill_name with
  | some skill_content =>
    "# Skill: " ++ skill_name ++ "\n\n## Instructions\n\n"
      ++ skill_content.instructions ++ "\n"
  | none =>
    let skills := SkillLoader.scan_skills roots
    if skills.isEmpty then
      "Skill \x27" ++ skill_name ++ "\x27 not found. No skills are currently available."
    else
      "Skill \x27" ++ skill_name ++ "\x27 not found. Available skills: "
        ++ joinSep ", " (skills.map fun s => s.name)

end Tools

/-- Validity of the digit run of a Python `int()` literal after the first
character: an underscore must be followed by a digit, every other character
must be a digit. -/
def pyDigitsOk : List Char → Bool
  | [] => true
  | '_' :: c :: rest => c.isDigit && pyDigitsOk rest
  | ['_'] => false
  | c :: rest => c.isDigit && pyDigitsOk rest

/-- Numeric value of a digit run, ignoring underscores. -/
def pyDigitsValue (cs : List Char) : Nat :=
  (cs.filter (· ≠ '_')).foldl (fun n c => n * 10 + (c.toNat - 48)) 0

/-- The unsigned part of Python `int()` parsing: a non-empty digit run whose
first character is a digit and whose underscores sit between digits. -/
def pyIntBody (cs : List Char) : Option Nat :=
  match cs with
  | [] => none
  | c :: _ => if c.isDigit && pyDigitsOk cs then some (pyDigitsValue cs) else none

/-- Python `str.strip()` on a character list: drop whitespace from both
ends. -/
def pyStrip (cs : List Char) : List Char :=
  ((cs.dropWhile Char.isWhitespace).reverse.dropWhile Char.isWhitespace).reverse

/-- `_parse_int` of checkpoint/config.py (lines 12-27) on a present string:
Python `int(value)` on ASCII input — surrounding whitespace stripped,
optional sign, digits with underscores between them; `none` when parsing
fails. -/
def pyParseInt (s : String) : Option Int :=
  match pyStrip s.toList with
  | '+' :: rest => (pyIntBody rest).map Int.ofNat
  | '-' :: rest => (pyIntBody rest).map fun n => -(n : Int)
  | cs => (pyIntBody cs).map Int.ofNat

/-- MySQL connection configuration (checkpoint/config.py lines 30-40). -/
structure MySQLConfig where
  host : String
  port : Int
  user : String
  password : String
  database : String
  pool_size : Option Int
  max_overflow : Option Int
deriving DecidableEq

/-- Checkpoint storage configuration (checkpoint/config.py lines 43-48). -/
structure CheckpointConfig where
  checkpoint_type : String
  mysql : Option MySQLConfig
deriving DecidableEq

/-- Python `str.lower()` on ASCII input: character-wise lowering. -/
def pyLower (s : String) : String :=
  String.mk (s.toList.map Char.toLower)

/-- `os.getenv("SKILLS_CHECKPOINT_TYPE", "memory").lower()`. -/
def cfgType (env : String → Option String) : String :=
  pyLower ((env "SKILLS_CHECKPOINT_TYPE").getD "memory")

/-- `get_checkpoint_config` (checkpoint/config.py lines 51-124) with the
process environment passed explicitly; `Except.error` stands for the
`ValueError` exceptions the Python function raises. -/
def get_checkpoint_config (env : String → Option String) :
    Except String CheckpointConfig :=
  if ¬ (cfgType env = "memory" ∨ cfgType env = "mysql") then
    .error ("无效的 checkpoint 类型: " ++ cfgType env
      ++ "，必须是 \x7b\x27memory\x27, \x27mysql\x27\x7d")
  else if cfgType env = "memory" then
    .ok { checkpoint_type := "memory", mysql := none }
  else if cfgType env = "mysql" then
    if (env "SKILLS_MYSQL_DATABASE").getD "" = "" then
      .error "MySQL 模式需要设置 SKILLS_MYSQL_DATABASE 环境变量"
    else
      match pyParseInt ((env "SKILLS_MYSQL_PORT").getD "3306") with
      | none => .error "SKILLS_MYSQL_PORT 必须是有效的整数"
      | some port =>
        if (env "SKILLS_MYSQL_POOL_SIZE").getD "" ≠ ""
            ∧ (env "SKILLS_MYSQL_POOL_SIZE").bind pyParseInt = none then
          .error "SKILLS_MYSQL_POOL_SIZE 必须是有效的整数"
        else if (env "SKILLS_MYSQL_MAX_OVERFLOW").getD "" ≠ ""
            ∧ (env "SKILLS_MYSQL_MAX_OVERFLOW").bind pyParseInt = none then
          .error "SKILLS_MYSQL_MAX_OVERFLOW 必须是有效的整数"
        else
          .ok { checkpoint_type := "mysql"
                mysql := some
                  { host := (env "SKILLS_MYSQL_HOST").getD "localhost"
                    port := port
                    user := (env "SKILLS_MYSQL_USER").getD "root"
                    password := (env "SKILLS_MYSQL_PASSWORD").getD ""
                    database := (env "SKILLS_MYSQL_DATABASE").getD ""
                    pool_size := (env "SKILLS_MYSQL_POOL_SIZE").bind pyParseInt
                    max_overflow := (env "SKILLS_MYSQL_MAX_OVERFLOW").bind pyParseInt } }
  else
    .ok { checkpoint_type := "memory", mysql := none }

/-- The amended characterization of when `get_checkpoint_config` raises,
following the claim's words corrected on two points: an empty
`SKILLS_MYSQL_DATABASE` counts as unset, and an empty-string
`SKILLS_MYSQL_POOL_SIZE` / `SKILLS_MYSQL_MAX_OVERFLOW` is ignored rather
than rejected (only non-empty invalid values raise). -/
def checkpointErrorSpec (env : String → Option String) : Prop :=
  (¬ (cfgType env = "memory" ∨ cfgType env = "mysql"))
  ∨ (cfgType env = "mysql" ∧ (env "SKILLS_MYSQL_DATABASE").getD "" = "")
  ∨ (cfgType env = "mysql" ∧ (env "SKILLS_MYSQL_DATABASE").getD "" ≠ ""
      ∧ (pyParseInt ((env "SKILLS_MYSQL_PORT").getD "3306") = none
         ∨ ((env "SKILLS_MYSQL_POOL_SIZE").getD "" ≠ ""
             ∧ (env "SKILLS_MYSQL_POOL_SIZE").bind pyParseInt = none)
         ∨ ((env "SKILLS_MYSQL_MAX_OVERFLOW").getD "" ≠ ""
             ∧ (env "SKILLS_MYSQL_MAX_OVERFLOW").bind pyParseInt = none)))

/-- Search-path root A of the spec's end-to-end scenario (§8): skill `foo`
with description "Foo skill". -/
def rootA : SkillRoot :=
  ⟨"A", [⟨"foo", some ⟨some "foo", some "Foo skill", "Body A"⟩⟩]⟩

/-- Search-path root B of the spec's end-to-end scenario (§8): skill `foo`
with description "Other", and skill `bar` (undeclared name and
description, exercising the fallbacks). -/
def rootB : SkillRoot :=
  ⟨"B", [⟨"foo", some ⟨some "foo", some "Other", "Body B"⟩⟩,
         ⟨"bar", some ⟨none, none, "Bar body"⟩⟩]⟩

/-- An empty abstract filesystem: no directories, no files. -/
def fsEmpty : FS :=
  { dirExists := fun _ => false, fileContent := fun _ => none }

/-- Environment for the C9 counterexample: mysql mode, database set, and
`SKILLS_MYSQL_POOL_SIZE` set to the empty string (which is not a valid
integer, yet the code accepts it). -/
def envPoolEmpty : String → Option String := fun k =>
  if k = "SKILLS_CHECKPOINT_TYPE" then some "mysql"
  else if k = "SKILLS_MYSQL_DATABASE" then some "db"
  else if k = "SKILLS_MYSQL_POOL_SIZE" then some ""
  else none

/-- Environment for the C9 witness: mysql mode, database set, and
`SKILLS_MYSQL_POOL_SIZE` set to a non-empty invalid integer. -/
def envPoolBad : String → Option String := fun k =>
  if k = "SKILLS_CHECKPOINT_TYPE" then some "mysql"
  else if k = "SKILLS_MYSQL_DATABASE" then some "db"
  else if k = "SKILLS_MYSQL_POOL_SIZE" then some "abc"
  else none

/-! ## Helper lemmas -/

theorem joinSep_cons_cons (sep x y : String) (xs : List String) :
    joinSep sep (x :: y :: xs) = x ++ sep ++ joinSep sep (y :: xs) := rfl

/-- C6: for every base prompt, `build_system_prompt` applied to the empty
skill sequence returns the base prompt unchanged — no empty skills section
is appended. -/
theorem C6_build_system_prompt_empty (base : String) :
    SkillLoader.build_system_prompt base [] = base := rfl

/-- C1 counterexample: a command that times out after producing partial
output.  The claim says no partial output produced up to the point of
cancellation is lost, but the tool returns only the fixed timeout message:
the partial stdout "partial-out" does not occur in the result. -/
theorem C1_cex :
    Tools.bash (.timedOut "partial-out" "partial-err")
      = "[Error] Command timed out after 300 seconds."
    ∧ strContains (Tools.bash (.timedOut "partial-out" "partial-err"))
        "partial-out" = false
    ∧ ("partial-out" : String) ≠ "" := by
  refine ⟨rfl, by decide, by decide⟩

/-- C1 (amended): for every command whose execution exceeds the 300-second
bound, the bash tool returns the descriptive, labeled timeout message
"[Error] Command timed out after 300 seconds." rather than hanging or
raising into the agent loop; partial output produced up to the point of
cancellation is discarded, not included in the message. -/
theorem C1_bash_timeout_message (cutStdout cutStderr : String) :
    Tools.bash (.timedOut cutStdout cutStderr)
      = "[Error] Command timed out after 300 seconds." := rfl

/-- C8: every failure inside the bash, read_file and write_file tools
resolves to a plain-text string result beginning with "[Error] "; the
embedded tools are total functions into `String`, so no failure escapes
as an exception. -/
theorem C8_tool_failures_are_error_strings :
    (∀ po pe : String, ∃ r, Tools.bash (.timedOut po pe) = "[Error] " ++ r)
    ∧ (∀ msg : String, ∃ r, Tools.bash (.oserror msg) = "[Error] " ++ r)
    ∧ (∀ p : String, ∃ r, Tools.read_file p .notFound = "[Error] " ++ r)
    ∧ (∀ p : String, ∃ r, Tools.read_file p .notAFile = "[Error] " ++ r)
    ∧ (∀ p : String, ∃ r, Tools.read_file p .decodeError = "[Error] " ++ r)
    ∧ (∀ p msg : String, ∃ r, Tools.read_file p (.readError msg) = "[Error] " ++ r)
    ∧ (∀ (wd target : PyPath) (content : String) (fs : FS) (k : Nat) (msg : String),
        ∃ r, (Tools.write_file wd target content fs (.mkdirError k msg)).1
          = "[Error] " ++ r)
    ∧ (∀ (wd target : PyPath) (content : String) (fs : FS) (msg : String),
        ∃ r, (Tools.write_file wd target content fs (.writeError msg)).1
          = "[Error] " ++ r) := by
  refine ⟨fun po pe => ⟨"Command timed out after 300 seconds.", rfl⟩,
          fun msg => ⟨"Failed to execute command: " ++ msg, ?_⟩,
          fun p => ⟨"File not found: " ++ p, ?_⟩,
          fun p => ⟨"Not a file: " ++ p, ?_⟩,
          fun p => ⟨"Cannot read file (binary or unknown encoding): " ++ p, ?_⟩,
          fun p msg => ⟨"Failed to read file: " ++ msg, ?_⟩,
          fun wd target content fs k msg => ⟨"Failed to write file: " ++ msg, ?_⟩,
          fun wd target content fs msg => ⟨"Failed to write file: " ++ msg, ?_⟩⟩
  all_goals simp [Tools.bash, Tools.read_file, Tools.write_file,
    ← String.append_assoc]

/-- C5: for every executed command that runs to completion, the bash tool
surfaces the captured standard output and standard error with the error
output under a distinct "[stderr]" label, and reports the exit code
alongside the captured output (also for command-not-found, non-zero exit
and signal terminations, which all surface here as a returncode). -/
theorem C5_bash_output_capture (stdout stderr : String) (returncode : Int) :
    (∃ pre, Tools.bash (.completed stdout stderr returncode)
      = pre ++ "\n[Exit code: " ++ toString returncode ++ "]")
    ∧ (stderr ≠ "" → ∃ pre post, Tools.bash (.completed stdout stderr returncode)
      = pre ++ "[stderr]\n" ++ stderr ++ post)
    ∧ (stdout ≠ "" → ∃ post, Tools.bash (.completed stdout stderr returncode)
      = stdout ++ "\n" ++ post) := by
  by_cases hs : stdout = "" <;> by_cases he : stderr = ""
  · refine ⟨⟨"[No output]" ++ "\n", ?_⟩, fun h => absurd he (by simpa using h),
      fun h => absurd hs (by simpa using h)⟩
    apply String.ext
    simp [Tools.bash, Tools.bash_run, hs, he, joinSep, String.data_append]
  · refine ⟨⟨"[stderr]\n" ++ stderr ++ "\n", ?_⟩,
      fun _ => ⟨"", "\n" ++ "\n[Exit code: " ++ toString returncode ++ "]", ?_⟩,
      fun h => absurd hs (by simpa using h)⟩ <;>
    · apply String.ext
      simp [Tools.bash, Tools.bash_run, hs, he, joinSep, String.data_append]
  · refine ⟨⟨stdout ++ "\n", ?_⟩, fun h => absurd he (by simpa using h),
      fun _ => ⟨"\n[Exit code: " ++ toString returncode ++ "]", ?_⟩⟩ <;>
    · apply String.ext
      simp [Tools.bash, Tools.bash_run, hs, he, joinSep, String.data_append]
  · refine ⟨⟨stdout ++ "\n" ++ "" ++ "\n" ++ "[stderr]\n" ++ stderr ++ "\n", ?_⟩,
      fun _ => ⟨stdout ++ "\n" ++ "" ++ "\n",
        "\n" ++ "\n[Exit code: " ++ toString returncode ++ "]", ?_⟩,
      fun _ => ⟨"" ++ "\n" ++ ("[stderr]\n" ++ stderr) ++ "\n"
        ++ ("\n[Exit code: " ++ toString returncode ++ "]"), ?_⟩⟩ <;>
    · apply String.ext
      simp [Tools.bash, Tools.bash_run, hs, he, joinSep, String.data_append]

/-- Witness for C5 at a concrete completed execution with non-empty stdout
and stderr and a non-zero exit code. -/
theorem C5_witness :
    (("err" : String) ≠ "" ∧ ("out" : String) ≠ "")
    ∧ ((∃ pre, Tools.bash (.completed "out" "err" 2)
        = pre ++ "\n[Exit code: " ++ toString (2 : Int) ++ "]")
      ∧ (("err" : String) ≠ "" → ∃ pre post, Tools.bash (.completed "out" "err" 2)
        = pre ++ "[stderr]\n" ++ "err" ++ post)
      ∧ (("out" : String) ≠ "" → ∃ post, Tools.bash (.completed "out" "err" 2)
        = "out" ++ "\n" ++ post)) :=
  ⟨⟨by decide, by decide⟩, C5_bash_output_capture "out" "err" 2⟩

/-- C3: for content splitting into more than 2000 lines, the read_file
rendering consists of exactly 2000 numbered lines followed by exactly one
summary line stating how many lines were omitted; for at most 2000 lines
the rendering has one numbered line per input line and no truncation
marker is appended. -/
theorem C3_read_file_line_cap (lines : List String) :
    (2000 < lines.length →
      (Tools.read_file_render lines).length = 2001
      ∧ (Tools.read_file_render lines).take 2000
          = Tools.numberLines (lines.take 2000)
      ∧ (Tools.read_file_render lines).getLast?
          = some ("... (" ++ toString (lines.length - 2000) ++ " more lines)"))
    ∧ (lines.length ≤ 2000 →
      Tools.read_file_render lines = Tools.numberLines lines
      ∧ (Tools.read_file_render lines).length = lines.length) := by
  have hnum : ∀ l : List String, (Tools.numberLines l).length = l.length := by
    intro l
    simp [Tools.numberLines, List.enum_length]
  constructor
  · intro h
    have hlen : (Tools.numberLines (lines.take 2000)).length = 2000 := by
      rw [hnum, List.length_take]
      omega
    unfold Tools.read_file_render
    rw [if_pos h]
    refine ⟨?_, List.take_left' hlen, List.getLast?_concat _⟩
    simp [hlen]
  · intro h
    have hq : ¬ 2000 < lines.length := by omega
    unfold Tools.read_file_render
    rw [if_neg hq, List.take_of_length_le h]
    exact ⟨rfl, hnum lines⟩

/-- Witness for C3 at a concrete 2001-line input. -/
theorem C3_witness :
    2000 < (List.replicate 2001 "x").length
    ∧ ((Tools.read_file_render (List.replicate 2001 "x")).length = 2001
      ∧ (Tools.read_file_render (List.replicate 2001 "x")).take 2000
          = Tools.numberLines ((List.replicate 2001 "x").take 2000)
      ∧ (Tools.read_file_render (List.replicate 2001 "x")).getLast?
          = some ("... ("
              ++ toString ((List.replicate 2001 "x").length - 2000)
              ++ " more lines)")) :=
  ⟨by rw [List.length_replicate]; omega,
   (C3_read_file_line_cap (List.replicate 2001 "x")).1
     (by rw [List.length_replicate]; omega)⟩

theorem dedupAux_sublist (l : List SkillContent) :
    ∀ seen, (SkillLoader.dedupAux seen l).Sublist l := by
  induction l with
  | nil => intro seen; simp [SkillLoader.dedupAux]
  | cons r rs ih =>
    intro seen
    unfold SkillLoader.dedupAux
    by_cases h : r.name ∈ seen
    · rw [if_pos h]
      exact (ih seen).cons r
    · rw [if_neg h]
      exact (ih (r.name :: seen)).cons₂ r

theorem dedupAux_countP_zero (l : List SkillContent) :
    ∀ seen name, name ∈ seen →
      (SkillLoader.dedupAux seen l).countP (fun r => r.name == name) = 0 := by
  induction l with
  | nil => intro seen name _; simp [SkillLoader.dedupAux]
  | cons r rs ih =>
    intro seen name hmem
    unfold SkillLoader.dedupAux
    by_cases h : r.name ∈ seen
    · rw [if_pos h]
      exact ih seen name hmem
    · rw [if_neg h]
      have hne : (r.name == name) = false := by
        simp only [beq_eq_false_iff_ne, ne_eq]
        intro heq
        exact h (heq ▸ hmem)
      rw [List.countP_cons, ih (r.name :: seen) name (List.mem_cons_of_mem _ hmem)]
      simp [hne]

theorem dedupAux_countP (l : List SkillContent) :
    ∀ seen name, name ∉ seen →
      (SkillLoader.dedupAux seen l).countP (fun r => r.name == name)
        = min 1 (l.countP (fun r => r.name == name)) := by
  induction l with
  | nil => intro seen name _; simp [SkillLoader.dedupAux]
  | cons r rs ih =>
    intro seen name hname
    unfold SkillLoader.dedupAux
    by_cases h : r.name ∈ seen
    · rw [if_pos h]
      have hne : (r.name == name) = false := by
        simp only [beq_eq_false_iff_ne, ne_eq]
        intro heq
        exact hname (heq ▸ h)
      rw [ih seen name hname, List.countP_cons]
      simp [hne]
    · rw [if_neg h]
      by_cases heq : r.name = name
      · have hb : (r.name == name) = true := by simp [heq]
        rw [List.countP_cons, List.countP_cons,
          dedupAux_countP_zero rs (r.name :: seen) name
            (heq ▸ List.mem_cons_self r.name seen)]
        simp [hb]
      · have hb : (r.name == name) = false := by simp [heq]
        have hnotin : name ∉ r.name :: seen := by
          intro hc
          rcases List.mem_cons.mp hc with h1 | h2
          · exact heq h1.symm
          · exact hname h2
        rw [List.countP_cons, List.countP_cons, ih (r.name :: seen) name hnotin]
        simp [hb]

theorem dedupAux_find? (l : List SkillContent) :
    ∀ seen name, name ∉ seen →
      (SkillLoader.dedupAux seen l).find? (fun r => r.name == name)
        = l.find? (fun r => r.name == name) := by
  induction l with
  | nil => intro seen name _; simp [SkillLoader.dedupAux]
  | cons r rs ih =>
    intro seen name hname
    unfold SkillLoader.dedupAux
    by_cases h : r.name ∈ seen
    · rw [if_pos h]
      have hne : (r.name == name) = false := by
        simp only [beq_eq_false_iff_ne, ne_eq]
        intro heq
        exact hname (heq ▸ h)
      rw [ih seen name hname]
      simp only [List.find?_cons, hne, cond_false]
    · rw [if_neg h]
      by_cases heq : r.name = name
      · have hb : (r.name == name) = true := by simp [heq]
        simp only [List.find?_cons, hb, cond_true]
      · have hb : (r.name == name) = false := by simp [heq]
        have hnotin : name ∉ r.name :: seen := by
          intro hc
          rcases List.mem_cons.mp hc with h1 | h2
          · exact heq h1.symm
          · exact hname h2
        simp only [List.find?_cons, hb, cond_false]
        exact ih (r.name :: seen) name hnotin

/-- C2: when the same skill name is declared in more than one search-path
root, the scan keeps exactly one record for that name; it is the first
record with that name in the concatenated walk (root order, then
subdirectory enumeration order within a root) — i.e. the one from the
earliest root — later duplicates are dropped, and the result is a
stable-order sublist of the concatenated walk. -/
theorem C2_scan_dedup_first_wins (roots : List SkillRoot) (name : String)
    (h : 2 ≤ (SkillLoader.allRecords roots).countP (fun r => r.name == name)) :
    (SkillLoader.scan_skills roots).countP (fun r => r.name == name) = 1
    ∧ (SkillLoader.scan_skills roots).find? (fun r => r.name == name)
        = (SkillLoader.allRecords roots).find? (fun r => r.name == name)
    ∧ (SkillLoader.scan_skills roots).Sublist (SkillLoader.allRecords roots) := by
  unfold SkillLoader.scan_skills
  refine ⟨?_, dedupAux_find? _ [] name (List.not_mem_nil name), dedupAux_sublist _ []⟩
  rw [dedupAux_countP _ [] name (List.not_mem_nil name)]
  omega

/-- Witness for C2 on the spec's end-to-end scenario: roots A and B both
declare skill `foo`. -/
theorem C2_witness :
    2 ≤ (SkillLoader.allRecords [rootA, rootB]).countP (fun r => r.name == "foo")
    ∧ ((SkillLoader.scan_skills [rootA, rootB]).countP (fun r => r.name == "foo") = 1
      ∧ (SkillLoader.scan_skills [rootA, rootB]).find? (fun r => r.name == "foo")
          = (SkillLoader.allRecords [rootA, rootB]).find? (fun r => r.name == "foo")
      ∧ (SkillLoader.scan_skills [rootA, rootB]).Sublist
          (SkillLoader.allRecords [rootA, rootB])) :=
  ⟨by decide, C2_scan_dedup_first_wins [rootA, rootB] "foo" (by decide)⟩

/-- C4: for every skill name that does not resolve to a skill on disk (no
record of the concatenated walk carries that name), the load operation
returns `none` — it never raises, being a total function — and the
`load_skill` tool converts the absent result into a descriptive not-found
message: it lists the currently discoverable skill names obtained by
invoking the scanner as a fallback enumeration step, or states that no
skills are available when the scan is empty. -/
theorem C4_load_skill_not_found (roots : List SkillRoot) (name : String)
    (h : ∀ r ∈ SkillLoader.allLoadRecords roots, r.name ≠ name) :
    SkillLoader.load_skill roots name = none
    ∧ (SkillLoader.scan_skills roots = [] →
        Tools.load_skill roots name
          = "Skill \x27" ++ name ++ "\x27 not found. No skills are currently available.")
    ∧ (SkillLoader.scan_skills roots ≠ [] →
        Tools.load_skill roots name
          = "Skill \x27" ++ name ++ "\x27 not found. Available skills: "
            ++ joinSep ", " ((SkillLoader.scan_skills roots).map fun s => s.name)) := by
  have hnone : SkillLoader.load_skill roots name = none := by
    unfold SkillLoader.load_skill
    rw [List.find?_eq_none]
    intro r hr
    simp [h r hr]
  refine ⟨hnone, ?_, ?_⟩
  · intro hempty
    unfold Tools.load_skill
    rw [hnone]
    simp only [hempty, List.isEmpty_nil, if_true]
  · intro hne
    unfold Tools.load_skill
    rw [hnone]
    simp only [List.isEmpty_eq_false_iff_exists_mem]
    rw [if_neg (by simp [List.isEmpty_iff, hne])]

/-- Witness for C4: a name that resolves to no skill under roots that do
contain skills. -/
theorem C4_witness :
    (∀ r ∈ SkillLoader.allLoadRecords [rootA, rootB], r.name ≠ "nonexistent")
    ∧ (SkillLoader.load_skill [rootA, rootB] "nonexistent" = none
      ∧ (SkillLoader.scan_skills [rootA, rootB] = [] →
          Tools.load_skill [rootA, rootB] "nonexistent"
            = "Skill \x27" ++ "nonexistent"
              ++ "\x27 not found. No skills are currently available.")
      ∧ (SkillLoader.scan_skills [rootA, rootB] ≠ [] →
          Tools.load_skill [rootA, rootB] "nonexistent"
            = "Skill \x27" ++ "nonexistent" ++ "\x27 not found. Available skills: "
              ++ joinSep ", "
                ((SkillLoader.scan_skills [rootA, rootB]).map fun s => s.name))) :=
  ⟨by decide, C4_load_skill_not_found [rootA, rootB] "nonexistent" (by decide)⟩

theorem loadRecord_editDir (p name b : String) (d : SkillDir) :
    SkillLoader.loadRecord p (SkillLoader.editDir name b d)
      = (SkillLoader.loadRecord p d).map
          (fun r => if r.name == name then { r with instructions := b } else r) := by
  cases d with
  | mk dirName manifest =>
    cases manifest with
    | none => rfl
    | some m =>
      unfold SkillLoader.editDir
      by_cases h : m.declaredName.getD dirName = name
      · simp [SkillLoader.loadRecord, h]
      · simp [SkillLoader.loadRecord, h]

theorem allLoadRecords_edit (roots : List SkillRoot) (name b : String) :
    SkillLoader.allLoadRecords (SkillLoader.editManifestBody roots name b)
      = (SkillLoader.allLoadRecords roots).map
          (fun r => if r.name == name then { r with instructions := b } else r) := by
  induction roots with
  | nil => rfl
  | cons r rs ih =>
    unfold SkillLoader.allLoadRecords SkillLoader.editManifestBody at *
    simp only [List.map_cons, List.flatten_cons, List.map_append, ih]
    congr 1
    rw [List.filterMap_map, List.map_filterMap]
    apply List.filterMap_congr
    intro d _
    exact loadRecord_editDir r.path name b d

/-- C7: if a skill's manifest instruction body is rewritten on disk, a
subsequent load of that skill returns the post-edit instruction text
verbatim and in full; the load is a function of the current filesystem
state only (it re-reads the manifest), so no stale copy from a prior scan
can be returned. -/
theorem C7_load_reflects_edit (roots : List SkillRoot) (name newBody : String)
    (r : SkillContent) (h : SkillLoader.load_skill roots name = some r) :
    SkillLoader.load_skill (SkillLoader.editManifestBody roots name newBody) name
      = some { r with instructions := newBody } := by
  unfold SkillLoader.load_skill at *
  rw [allLoadRecords_edit, List.find?_map]
  have hpf : ((fun x : SkillContent => x.name == name)
      ∘ fun x : SkillContent => if x.name == name then { x with instructions := newBody } else x)
      = fun x : SkillContent => x.name == name := by
    funext x
    by_cases hx : x.name == name
    · simp [Function.comp, hx]
    · simp [Function.comp, hx]
  rw [hpf, h]
  have hr : (r.name == name) = true :=
    @List.find?_some SkillContent (fun x : SkillContent => x.name == name) r
      (SkillLoader.allLoadRecords roots) h
  simp [hr]
  intro hc
  exact absurd (eq_of_beq hr) hc

/-- Witness for C7: edit skill `foo`'s manifest body under roots A, B and
reload it. -/
theorem C7_witness :
    SkillLoader.load_skill [rootA, rootB] "foo"
      = some { name := "foo", description := "Foo skill",
               skill_path := "A/foo", instructions := "Body A" }
    ∧ SkillLoader.load_skill
        (SkillLoader.editManifestBody [rootA, rootB] "foo" "New body") "foo"
      = some { name := "foo", description := "Foo skill",
               skill_path := "A/foo", instructions := "New body" } :=
  ⟨by decide,
   C7_load_reflects_edit [rootA, rootB] "foo" "New body"
     { name := "foo", description := "Foo skill",
       skill_path := "A/foo", instructions := "Body A" } (by decide)⟩

/-- C10: for every writable target path (absolute, or relative to the
working directory) the write_file tool returns a success message — even
when the target's parent directory did not previously exist, since it
creates all missing parent directories before writing — and the written
file holds the given content afterwards; on any failure, whether raised in
the mkdir step or in the write step after the parent directories were
already created, it returns an "[Error]" string instead of raising. -/
theorem C10_write_file_creates_parents (wd target : PyPath) (content : String)
    (fs : FS) :
    (Tools.write_file wd target content fs .ok).1
      = "[Success] File written: " ++ Tools.pathToString (Tools.resolvePath wd target)
    ∧ (Tools.write_file wd target content fs .ok).2.fileContent
        (Tools.resolvePath wd target) = some content
    ∧ (∀ a ∈ Tools.ancestors (Tools.parentPath (Tools.resolvePath wd target)),
        (Tools.write_file wd target content fs .ok).2.dirExists a = true)
    ∧ (∀ k msg, (Tools.write_file wd target content fs (.mkdirError k msg)).1
        = "[Error] Failed to write file: " ++ msg)
    ∧ (∀ msg, (Tools.write_file wd target content fs (.writeError msg)).1
        = "[Error] Failed to write file: " ++ msg) := by
  refine ⟨rfl, ?_, ?_, fun k msg => rfl, fun msg => rfl⟩
  · simp [Tools.write_file, Tools.writeText]
  · intro a ha
    simp only [Tools.write_file, Tools.writeText, Tools.mkdirParents,
      Bool.or_eq_true]
    exact Or.inr (List.elem_eq_true_of_mem ha)

/-- Witness for C10: writing a relative path with two missing parent
directories into an empty filesystem; the ancestor `/home/sub` did not
exist beforehand and exists afterwards. -/
theorem C10_witness :
    (⟨true, ["home", "sub"]⟩ : PyPath) ∈
      Tools.ancestors (Tools.parentPath
        (Tools.resolvePath ⟨true, ["home"]⟩ ⟨false, ["sub", "dir", "f.txt"]⟩))
    ∧ fsEmpty.dirExists ⟨true, ["home", "sub"]⟩ = false
    ∧ (Tools.write_file ⟨true, ["home"]⟩ ⟨false, ["sub", "dir", "f.txt"]⟩
        "hello" fsEmpty .ok).2.dirExists ⟨true, ["home", "sub"]⟩ = true
    ∧ (Tools.write_file ⟨true, ["home"]⟩ ⟨false, ["sub", "dir", "f.txt"]⟩
        "hello" fsEmpty .ok).1
      = "[Success] File written: "
        ++ Tools.pathToString
          (Tools.resolvePath ⟨true, ["home"]⟩ ⟨false, ["sub", "dir", "f.txt"]⟩) :=
  ⟨by decide, rfl,
   (C10_write_file_creates_parents ⟨true, ["home"]⟩ ⟨false, ["sub", "dir", "f.txt"]⟩
      "hello" fsEmpty).2.2.1 ⟨true, ["home", "sub"]⟩ (by decide),
   (C10_write_file_creates_parents ⟨true, ["home"]⟩ ⟨false, ["sub", "dir", "f.txt"]⟩
      "hello" fsEmpty).1⟩

/-- C9 counterexample: with mysql mode, a database name, and
`SKILLS_MYSQL_POOL_SIZE` set to the empty string — which is set but not a
valid integer — the claim says `get_checkpoint_config` raises, but the
code returns a configuration (the truthiness test
`if pool_size_str and pool_size is None` skips empty strings). -/
theorem C9_cex :
    envPoolEmpty "SKILLS_MYSQL_POOL_SIZE" = some ""
    ∧ pyParseInt "" = none
    ∧ get_checkpoint_config envPoolEmpty
      = Except.ok
          { checkpoint_type := "mysql"
            mysql := some
              { host := "localhost", port := 3306, user := "root",
                password := "", database := "db",
                pool_size := none, max_overflow := none } } :=
  ⟨rfl, by decide, rfl⟩

/-- C9 (amended): invalid persistence configuration is rejected at
construction time, not per turn: `get_checkpoint_config` raises exactly
when the configured checkpoint type is neither "memory" nor "mysql", or
when mysql mode is selected and the database name is unset or empty, or
when the port value is set but not a valid integer, or when the pool-size /
max-overflow values are set to non-empty strings that are not valid
integers; for all other (valid) configurations it returns a config object
without raising. -/
theorem C9_config_validation (env : String → Option String) :
    (∃ e, get_checkpoint_config env = Except.error e) ↔ checkpointErrorSpec env := by
  unfold get_checkpoint_config checkpointErrorSpec
  by_cases h1 : ¬ (cfgType env = "memory" ∨ cfgType env = "mysql")
  · rw [if_pos h1]
    exact iff_of_true ⟨_, rfl⟩ (Or.inl h1)
  · rw [if_neg h1]
    have hAB := not_not.mp h1
    by_cases h2 : cfgType env = "memory"
    · rw [if_pos h2]
      apply iff_of_false
      · rintro ⟨e, he⟩
        exact Except.noConfusion he
      · rintro (hc | ⟨hc1, _⟩ | ⟨hc1, _, _⟩)
        · exact hc hAB
        · exact absurd (h2.symm.trans hc1) (by decide)
        · exact absurd (h2.symm.trans hc1) (by decide)
    · rw [if_neg h2]
      have h3 : cfgType env = "mysql" := hAB.resolve_left h2
      rw [if_pos h3]
      by_cases h4 : (env "SKILLS_MYSQL_DATABASE").getD "" = ""
      · rw [if_pos h4]
        exact iff_of_true ⟨_, rfl⟩ (Or.inr (Or.inl ⟨h3, h4⟩))
      · rw [if_neg h4]
        cases hp : pyParseInt ((env "SKILLS_MYSQL_PORT").getD "3306") with
        | none =>
          exact iff_of_true ⟨_, rfl⟩ (Or.inr (Or.inr ⟨h3, h4, Or.inl rfl⟩))
        | some port =>
          dsimp only
          by_cases h5 : (env "SKILLS_MYSQL_POOL_SIZE").getD "" ≠ ""
              ∧ (env "SKILLS_MYSQL_POOL_SIZE").bind pyParseInt = none
          · rw [if_pos h5]
            exact iff_of_true ⟨_, rfl⟩ (Or.inr (Or.inr ⟨h3, h4, Or.inr (Or.inl h5)⟩))
          · rw [if_neg h5]
            by_cases h6 : (env "SKILLS_MYSQL_MAX_OVERFLOW").getD "" ≠ ""
                ∧ (env "SKILLS_MYSQL_MAX_OVERFLOW").bind pyParseInt = none
            · rw [if_pos h6]
              exact iff_of_true ⟨_, rfl⟩
                (Or.inr (Or.inr ⟨h3, h4, Or.inr (Or.inr h6)⟩))
            · rw [if_neg h6]
              apply iff_of_false
              · rintro ⟨e, he⟩
                exact Except.noConfusion he
              · rintro (hc | ⟨_, hc2⟩ | ⟨_, _, (hc3 | hc4 | hc5)⟩)
                · exact hc hAB
                · exact h4 hc2
                · exact Option.noConfusion hc3
                · exact h5 hc4
                · exact h6 hc5

/-- Witness for C9 at a concrete invalid configuration: pool size set to a
non-empty string that is not a valid integer makes the amended error
condition hold, and the code indeed raises. -/
theorem C9_witness :
    checkpointErrorSpec envPoolBad
    ∧ (∃ e, get_checkpoint_config envPoolBad = Except.error e) :=
  ⟨by unfold checkpointErrorSpec cfgType pyLower; decide,
   (C9_config_validation envPoolBad).mpr
     (by unfold checkpointErrorSpec cfgType pyLower; decide)⟩
